import Mathlib

/-!
Shallow embedding of `src/ChessVar.py` (chess variant with hunter and falcon
fairy pieces).  Python dictionaries become association lists, Python `int`
becomes `Int` (Python `%` on ints matches `Int.emod` for a positive modulus),
and a raised exception (KeyError / TypeError) is modelled by the outer `none`
of an `Option` result.  In-place mutation of the single `ChessVar` object is
modelled by explicit state passing.
-/

set_option maxRecDepth 40000

namespace ChessVar

/-- A Python piece object.  `id` models Python object identity (each object
created by `populate_board` gets a fresh id).  `pieceName` is `_piece_name`,
`color` is `_color`, and `firstMove` is `_first_move` (only the `Pawn` class
ever reads or writes it; the other classes either lack the attribute or never
touch it, so carrying it here with initial value `true` is harmless). -/
structure Piece where
  id : Nat
  pieceName : String
  color : String
  firstMove : Bool
  deriving DecidableEq, Repr

/-- A Python dict with string keys, as an association list in insertion order. -/
abbrev PyDict (α : Type) := List (String × α)

/-- Python `d[k]` read: `some v` when the key is present, `none` for a KeyError. -/
def pyDictGet {α : Type} : PyDict α → String → Option α
  | [], _ => none
  | (k, v) :: rest, key => if k = key then some v else pyDictGet rest key

/-- Python `k in d`. -/
def pyDictContains {α : Type} (d : PyDict α) (key : String) : Bool :=
  (pyDictGet d key).isSome

/-- Python `d[k] = v`.  Every assignment performed by the source writes to a
key that is already present (both squares are membership-checked in
`make_move`, and `entry_fairy_piece` only reaches the assignment after the
entry square converted to a location), so updating in place is faithful. -/
def pyDictSet {α : Type} (d : PyDict α) (key : String) (v : α) : PyDict α :=
  d.map (fun p => if p.1 = key then (key, v) else p)

/-- Python `range(a, b)` over ints: `[a, a+1, ..., b-1]`, empty when `b ≤ a`. -/
def pyRange (a b : Int) : List Int :=
  (List.range (b - a).toNat).map (fun i => a + i)

/-- The `_edge_one` list shared by Pawn/Rook/Bishop (file-a squares). -/
def edgeOne : List Int := [0, 8, 16, 24, 32, 40, 48, 56]

/-- The `_edge_eight` list shared by Pawn/Rook/Bishop (file-h squares). -/
def edgeEight : List Int := [7, 15, 23, 31, 39, 47, 55, 63]

/-- `Pawn.valid_move` (src lines 434-529).  Returns the resulting
`_first_move` flag together with the Python return value (`none` = Python
`None`).  Every `self._first_move = False` assignment in the source
immediately precedes a `return [...]`, and this transcription keeps that
pairing branch by branch. -/
def pawnValidMove (color : String) (firstMove : Bool) (cur new : Int)
    (occ : Option Piece) : Bool × Option (List Int) :=
  if cur ∉ edgeOne ∧ cur ∉ edgeEight then
    if color = "black" then
      if cur + 8 = new ∧ occ = none then (false, some [new])
      else if cur + 16 = new ∧ firstMove = true ∧ occ = none then
        (false, some [cur + 8, new])
      else
        match occ with
        | some o =>
          if o.color = "black" then (firstMove, none)
          else if cur + 7 = new ∨ cur + 9 = new then
            if o.color = "white" then (false, some [new]) else (firstMove, none)
          else (firstMove, none)
        | none => (firstMove, none)
    else if color = "white" then
      if cur - 8 = new ∧ occ = none then (false, some [new])
      else if cur - 16 = new ∧ firstMove = true ∧ occ = none then
        (false, some [cur - 8, new])
      else
        match occ with
        | some o =>
          if cur - 7 = new ∨ cur - 9 = new then
            if o.color = "black" then (false, some [new]) else (firstMove, none)
          else (firstMove, none)
        | none => (firstMove, none)
    else (firstMove, none)
  else if cur ∈ edgeOne ∧ color = "black" then
    if cur + 8 = new ∧ occ = none then (false, some [new])
    else if cur + 16 = new ∧ firstMove = true ∧ occ = none then
      (false, some [cur + 8, new])
    else
      match occ with
      | some o =>
        if cur + 9 = new then
          if o.color = "white" then (false, some [new]) else (firstMove, none)
        else (firstMove, none)
      | none => (firstMove, none)
  else if cur ∈ edgeEight ∧ color = "black" then
    if cur + 8 = new ∧ occ = none then (false, some [new])
    else if cur + 16 = new ∧ firstMove = true ∧ occ = none then
      (false, some [cur + 8, new])
    else
      match occ with
      | some o =>
        if cur + 7 = new then
          if o.color = "white" then (false, some [new]) else (firstMove, none)
        else (firstMove, none)
      | none => (firstMove, none)
  else if cur ∈ edgeOne ∧ color = "white" then
    if cur - 8 = new ∧ occ = none then (false, some [new])
    else if cur - 16 = new ∧ firstMove = true ∧ occ = none then
      (false, some [cur - 8, new])
    else
      match occ with
      | some o =>
        if cur - 7 = new then
          if o.color = "black" then (false, some [new]) else (firstMove, none)
        else (firstMove, none)
      | none => (firstMove, none)
  else if cur ∈ edgeEight ∧ color = "white" then
    if cur - 8 = new ∧ occ = none then (false, some [new])
    else if cur - 16 = new ∧ firstMove = true ∧ occ = none then
      (false, some [cur - 8, new])
    else
      match occ with
      | some o =>
        if cur - 9 = new then
          if o.color = "black" then (false, some [new]) else (firstMove, none)
        else (firstMove, none)
      | none => (firstMove, none)
  else (firstMove, none)

/-- Shared shape of the per-row branches of `Rook.valid_move` (and the same
branches of `Queen.valid_move`): the source appends `range(new, cur+1)` when
`current_location > new_location` and appends `range(cur, new+1)` when
`new_location < current_location`.  Both guards are the same condition, a
defect kept faithfully: when `cur < new` the result is empty. -/
def rowSegment (cur new : Int) : List Int :=
  (if cur > new then pyRange new (cur + 1) else []) ++
    (if new < cur then pyRange cur (new + 1) else [])

/-- `Rook.valid_move` (src lines 547-629). -/
def rookValidMove (cur new : Int) : Option (List Int) :=
  if (cur - new) % 8 = 0 then
    if cur < new then
      some ((pyRange cur (new + 1)).filter (fun l => (cur - l) % 8 == 0))
    else if cur > new then
      some ((pyRange new (cur + 1)).filter (fun l => (cur - l) % 8 == 0))
    else some []
  else if 0 ≤ cur ∧ cur ≤ 7 ∧ 0 ≤ new ∧ new ≤ 7 then some (rowSegment cur new)
  else if 8 ≤ cur ∧ cur ≤ 15 ∧ 8 ≤ new ∧ new ≤ 15 then some (rowSegment cur new)
  else if 16 ≤ cur ∧ cur ≤ 23 ∧ 16 ≤ new ∧ new ≤ 23 then some (rowSegment cur new)
  else if 24 ≤ cur ∧ cur ≤ 31 ∧ 24 ≤ new ∧ new ≤ 31 then some (rowSegment cur new)
  else if 32 ≤ cur ∧ cur ≤ 39 ∧ 32 ≤ new ∧ new ≤ 39 then some (rowSegment cur new)
  else if 40 ≤ cur ∧ cur ≤ 47 ∧ 40 ≤ new ∧ new ≤ 47 then some (rowSegment cur new)
  else if 48 ≤ cur ∧ cur ≤ 55 ∧ 48 ≤ new ∧ new ≤ 55 then some (rowSegment cur new)
  else if 56 ≤ cur ∧ cur ≤ 63 ∧ 56 ≤ new ∧ new ≤ 63 then some (rowSegment cur new)
  else none

/-- `Bishop.valid_move` (src lines 662-694).  In the `% 7` branch the
source's `return valid_move_list` sits inside the `for` loop, so the function
returns at the end of the first iteration; in the `% 9` branch the return is
outside the loop and the whole filtered range is produced.  An empty range
(impossible here since the guards force at least two iterations) would fall
through to the final `return None`. -/
def bishopValidMove (cur new : Int) : Option (List Int) :=
  if (cur - new) % 7 = 0 then
    if cur > new then
      match pyRange new (cur + 1) with
      | [] => none
      | m :: _ => some (if (m - cur).natAbs % 7 == 0 then [m] else [])
    else if new > cur then
      match pyRange cur (new + 1) with
      | [] => none
      | m :: _ => some (if (m - cur).natAbs % 7 == 0 then [m] else [])
    else none
  else if (cur - new) % 9 = 0 then
    if cur > new then
      some ((pyRange new (cur + 1)).filter (fun l => (l - cur).natAbs % 9 == 0))
    else if new > cur then
      some ((pyRange cur (new + 1)).filter (fun l => (l - cur).natAbs % 9 == 0))
    else none
  else none

/-- `Knight.valid_move` (src lines 725-735).  The source tests
`abs(diff)/6 == 1 or abs(diff)/10 == 1 or ...` with true division, which for
an integer numerator holds exactly when the absolute difference equals the
divisor, so the test reduces to membership of `|cur - new|` in
`{6, 10, 14, 15, 17}`.  No file/rank (L-shape) geometry is checked. -/
def knightValidMove (cur new : Int) : Option (List Int) :=
  if (cur - new).natAbs = 6 ∨ (cur - new).natAbs = 10 ∨ (cur - new).natAbs = 14 ∨
      (cur - new).natAbs = 15 ∨ (cur - new).natAbs = 17 then
    some [new]
  else none

/-- `Queen.valid_move` (src lines 765-870).  First the file branch (filtered
with `abs % 8`), then the eight row branches sharing `rowSegment`'s duplicated
guard, then the diagonal checks, whose returns are outside their loops so the
full filtered ranges are produced. -/
def queenValidMove (cur new : Int) : Option (List Int) :=
  if (cur - new) % 8 = 0 then
    if cur < new then
      some ((pyRange cur (new + 1)).filter (fun l => (cur - l).natAbs % 8 == 0))
    else if cur > new then
      some ((pyRange new (cur + 1)).filter (fun l => (cur - l).natAbs % 8 == 0))
    else some []
  else if 0 ≤ cur ∧ cur ≤ 7 ∧ 0 ≤ new ∧ new ≤ 7 then some (rowSegment cur new)
  else if 8 ≤ cur ∧ cur ≤ 15 ∧ 8 ≤ new ∧ new ≤ 15 then some (rowSegment cur new)
  else if 16 ≤ cur ∧ cur ≤ 23 ∧ 16 ≤ new ∧ new ≤ 23 then some (rowSegment cur new)
  else if 24 ≤ cur ∧ cur ≤ 31 ∧ 24 ≤ new ∧ new ≤ 31 then some (rowSegment cur new)
  else if 32 ≤ cur ∧ cur ≤ 39 ∧ 32 ≤ new ∧ new ≤ 39 then some (rowSegment cur new)
  else if 40 ≤ cur ∧ cur ≤ 47 ∧ 40 ≤ new ∧ new ≤ 47 then some (rowSegment cur new)
  else if 48 ≤ cur ∧ cur ≤ 55 ∧ 48 ≤ new ∧ new ≤ 55 then some (rowSegment cur new)
  else if 56 ≤ cur ∧ cur ≤ 63 ∧ 56 ≤ new ∧ new ≤ 63 then some (rowSegment cur new)
  else if (cur - new).natAbs % 7 = 0 then
    if cur > new then
      some ((pyRange new (cur + 1)).filter (fun l => (l - cur).natAbs % 7 == 0))
    else if new > cur then
      some ((pyRange cur (new + 1)).filter (fun l => (l - cur).natAbs % 7 == 0))
    else none
  else if (cur - new).natAbs % 9 = 0 then
    if cur > new then
      some ((pyRange new (cur + 1)).filter (fun l => (l - cur).natAbs % 9 == 0))
    else if new > cur then
      some ((pyRange cur (new + 1)).filter (fun l => (l - cur).natAbs % 9 == 0))
    else none
  else none

/-- `King.valid_move` (src lines 900-911).  Like the knight, the float
ratio tests reduce to equalities of the absolute difference. -/
def kingValidMove (cur new : Int) : Option (List Int) :=
  if (cur - new).natAbs = 9 ∨ (cur - new).natAbs = 8 ∨ (cur - new).natAbs = 7 then
    some [new]
  else if cur + 1 = new ∨ cur - 1 = new then some [new]
  else none

/-- `Hunter.valid_move` (src lines 939-988).  The diagonal filters transcribe
the source's `location - current_location % 7 == 0`, where Python's `%` binds
tighter than `-`, i.e. `l - (cur % 7) == 0`. -/
def hunterValidMove (color : String) (cur new : Int) : Option (List Int) :=
  if color = "black" then
    if new > cur then
      if (cur - new) % 8 = 0 then
        some ((pyRange cur (new + 1)).filter (fun l => (cur - l) % 8 == 0))
      else none
    else if new < cur then
      if (cur - new) % 7 = 0 then
        some ((pyRange new (cur + 1)).filter (fun l => l - (cur % 7) == 0))
      else if (cur - new) % 9 = 0 then
        some ((pyRange new (cur + 1)).filter (fun l => l - (cur % 9) == 0))
      else none
    else none
  else if color = "white" then
    if new < cur then
      if (cur - new) % 8 = 0 then
        some ((pyRange new (cur + 1)).filter (fun l => (cur - l) % 8 == 0))
      else none
    else if new > cur then
      if (cur - new) % 7 = 0 then
        some ((pyRange cur (new + 1)).filter (fun l => l - (cur % 7) == 0))
      else if (cur - new) % 9 = 0 then
        some ((pyRange cur (new + 1)).filter (fun l => l - (cur % 9) == 0))
      else none
    else none
  else none

/-- `Falcon.valid_move` (src lines 1016-1086).  The black rook-backward and
bishop-forward loops iterate over ranges that are empty for the guarding
comparison, so those branches return empty lists; the trailing duplicate
white block (src lines 1068-1086) is unreachable because the `elif` at line
1046 already returns for every white call. -/
def falconValidMove (color : String) (cur new : Int) : Option (List Int) :=
  if color = "black" then
    if new < cur then
      if (cur - new) % 8 = 0 then
        some ((pyRange cur (new + 1)).filter (fun l => (cur - l) % 8 == 0))
      else none
    else if new > cur then
      if (cur - new) % 7 = 0 then
        some ((pyRange new (cur + 1)).filter (fun l => l - (cur % 7) == 0))
      else if (cur - new) % 9 = 0 then
        some ((pyRange new (cur + 1)).filter (fun l => l - (cur % 9) == 0))
      else none
    else none
  else if color = "white" then
    if new > cur then
      if (cur - new) % 8 = 0 then
        some ((pyRange cur (new + 1)).filter (fun l => (cur - l) % 8 == 0))
      else none
    else if new < cur then
      if (cur - new) % 7 = 0 then
        some ((pyRange new (cur + 1)).filter (fun l => l - (cur % 7) == 0))
      else if (cur - new) % 9 = 0 then
        some ((pyRange new (cur + 1)).filter (fun l => l - (cur % 9) == 0))
      else none
    else none
  else none

/-- Dynamic dispatch of `moving_piece.valid_move(...)` on the piece's class,
returning the piece's resulting `_first_move` flag (only the pawn mutates it)
together with the returned move list. -/
def pieceValidMove (p : Piece) (cur new : Int) (occ : Option Piece) :
    Bool × Option (List Int) :=
  if p.pieceName = "pawn" then pawnValidMove p.color p.firstMove cur new occ
  else
    (p.firstMove,
      if p.pieceName = "rook" then rookValidMove cur new
      else if p.pieceName = "knight" then knightValidMove cur new
      else if p.pieceName = "bishop" then bishopValidMove cur new
      else if p.pieceName = "queen" then queenValidMove cur new
      else if p.pieceName = "king" then kingValidMove cur new
      else if p.pieceName = "hunter" then hunterValidMove p.color cur new
      else if p.pieceName = "falcon" then falconValidMove p.color cur new
      else none)

/-- The `Player` class (src lines 202-261). -/
structure Player where
  name : String
  color : String
  activePieces : List String
  capturedPieces : List String
  fairyPiecesStable : List String
  deriving DecidableEq, Repr

/-- Python `list.remove` restricted to its effect when called as in the
source: drops the first occurrence of `x` (both `remove_active_piece`, which
guards with its own membership loop, and `remove_fairy_piece`, whose call
sites in `entry_fairy_piece` only fire after an `in` test on the same list,
operate on lists containing the element). -/
def removeFirst : List String → String → List String
  | [], _ => []
  | x :: xs, y => if x = y then xs else x :: removeFirst xs y

/-- `Player.remove_active_piece` (src lines 240-245). -/
def Player.removeActivePiece (p : Player) (n : String) : Player :=
  { p with activePieces := removeFirst p.activePieces n }

/-- `Player.add_captured_piece` (src lines 247-249). -/
def Player.addCapturedPiece (p : Player) (n : String) : Player :=
  { p with capturedPieces := p.capturedPieces ++ [n] }

/-- `Player.remove_fairy_piece` (src lines 259-261). -/
def Player.removeFairyPiece (p : Player) (n : String) : Player :=
  { p with fairyPiecesStable := removeFirst p.fairyPiecesStable n }

/-- `Player.new_piece_set` (src lines 218-234): seven pawns (the source loop
`range(1, 8)` runs seven times), two rooks, two knights, two bishops, king,
queen; the stable receives hunter then falcon. -/
def Player.newPieceSet (p : Player) : Player :=
  { p with
    activePieces := p.activePieces ++ List.replicate 7 "pawn" ++
      ["rook", "rook", "knight", "knight", "bishop", "bishop", "king", "queen"],
    fairyPiecesStable := p.fairyPiecesStable ++ ["hunter", "falcon"] }

/-- `Board._name_to_location_dict` (src lines 287-296). -/
def nameToLocationDict : PyDict Int :=
  [("a8", 0), ("b8", 1), ("c8", 2), ("d8", 3), ("e8", 4), ("f8", 5), ("g8", 6), ("h8", 7),
   ("a7", 8), ("b7", 9), ("c7", 10), ("d7", 11), ("e7", 12), ("f7", 13), ("g7", 14), ("h7", 15),
   ("a6", 16), ("b6", 17), ("c6", 18), ("d6", 19), ("e6", 20), ("f6", 21), ("g6", 22), ("h6", 23),
   ("a5", 24), ("b5", 25), ("c5", 26), ("d5", 27), ("e5", 28), ("f5", 29), ("g5", 30), ("h5", 31),
   ("a4", 32), ("b4", 33), ("c4", 34), ("d4", 35), ("e4", 36), ("f4", 37), ("g4", 38), ("h4", 39),
   ("a3", 40), ("b3", 41), ("c3", 42), ("d3", 43), ("e3", 44), ("f3", 45), ("g3", 46), ("h3", 47),
   ("a2", 48), ("b2", 49), ("c2", 50), ("d2", 51), ("e2", 52), ("f2", 53), ("g2", 54), ("h2", 55),
   ("a1", 56), ("b1", 57), ("c1", 58), ("d1", 59), ("e1", 60), ("f1", 61), ("g1", 62), ("h1", 63)]

/-- The board dictionary of `Board.__init__` (src lines 274-285): the four
stable slots `f`, `h`, `F`, `H` share the key space with the 64 squares, all
initially empty. -/
def initialBoardDict : PyDict (Option Piece) :=
  [("f", none), ("h", none)] ++ nameToLocationDict.map (fun p => (p.1, none)) ++
    [("F", none), ("H", none)]

/-- `Board.get_space_name_as_location` (src lines 368-375): returns the
location for a name present in the board dict, Python `None` (inner `none`)
for an unknown name, and raises KeyError (outer `none`) for the stable slot
keys, which are board keys absent from the location table. -/
def getSpaceNameAsLocation (b : PyDict (Option Piece)) (spaceName : String) :
    Option (Option Int) :=
  if pyDictContains b spaceName then
    match pyDictGet nameToLocationDict spaceName with
    | some n => some (some n)
    | none => none
  else some none

/-- `Board.get_location_as_space_name` (src lines 377-381): first key of the
location table whose value matches, Python `None` when nothing matches.  The
method only touches `_name_to_location_dict`, which no code mutates. -/
def getLocationAsSpaceName (location : Int) : Option String :=
  (nameToLocationDict.find? (fun p => p.2 == location)).map (fun p => p.1)

/-- Constructs the pieces of `Board.populate_board` (src lines 298-344) for
one color, writing them onto the board.  `baseId` seeds the object identities
of the eighteen objects created, in creation order (p1..p8, r1, r2, k1, k2,
b1, b2, q1, king, falcon, hunter). -/
def populateBoard (b : PyDict (Option Piece)) (color : String)
    (rowFront rowBack : Nat) (baseId : Nat) : PyDict (Option Piece) :=
  let b := pyDictSet b ("a" ++ toString rowFront) (some ⟨baseId, "pawn", color, true⟩)
  let b := pyDictSet b ("b" ++ toString rowFront) (some ⟨baseId + 1, "pawn", color, true⟩)
  let b := pyDictSet b ("c" ++ toString rowFront) (some ⟨baseId + 2, "pawn", color, true⟩)
  let b := pyDictSet b ("d" ++ toString rowFront) (some ⟨baseId + 3, "pawn", color, true⟩)
  let b := pyDictSet b ("e" ++ toString rowFront) (some ⟨baseId + 4, "pawn", color, true⟩)
  let b := pyDictSet b ("f" ++ toString rowFront) (some ⟨baseId + 5, "pawn", color, true⟩)
  let b := pyDictSet b ("g" ++ toString rowFront) (some ⟨baseId + 6, "pawn", color, true⟩)
  let b := pyDictSet b ("h" ++ toString rowFront) (some ⟨baseId + 7, "pawn", color, true⟩)
  let b := pyDictSet b ("a" ++ toString rowBack) (some ⟨baseId + 8, "rook", color, true⟩)
  let b := pyDictSet b ("h" ++ toString rowBack) (some ⟨baseId + 9, "rook", color, true⟩)
  let b := pyDictSet b ("b" ++ toString rowBack) (some ⟨baseId + 10, "knight", color, true⟩)
  let b := pyDictSet b ("g" ++ toString rowBack) (some ⟨baseId + 11, "knight", color, true⟩)
  let b := pyDictSet b ("c" ++ toString rowBack) (some ⟨baseId + 12, "bishop", color, true⟩)
  let b := pyDictSet b ("f" ++ toString rowBack) (some ⟨baseId + 13, "bishop", color, true⟩)
  let b := pyDictSet b ("d" ++ toString rowBack) (some ⟨baseId + 14, "queen", color, true⟩)
  let b := pyDictSet b ("e" ++ toString rowBack) (some ⟨baseId + 15, "king", color, true⟩)
  if color = "black" then
    let b := pyDictSet b "f" (some ⟨baseId + 16, "falcon", color, true⟩)
    pyDictSet b "h" (some ⟨baseId + 17, "hunter", color, true⟩)
  else if color = "white" then
    let b := pyDictSet b "F" (some ⟨baseId + 16, "falcon", color, true⟩)
    pyDictSet b "H" (some ⟨baseId + 17, "hunter", color, true⟩)
  else b

/-- The mutable state of one `ChessVar` object (src lines 29-44). -/
structure ChessVarState where
  turn : Int
  gameState : String
  player1 : Player
  player2 : Player
  pieceGenerationCounter : Int
  newBoard : PyDict (Option Piece)
  deriving DecidableEq, Repr

/-- `ChessVar.__init__` (src lines 29-44): turn 1, state UNFINISHED, both
players given a fresh piece set, board populated black (rows 7/8) then white
(rows 2/1). -/
def freshGame : ChessVarState :=
  { turn := 1
    gameState := "UNFINISHED"
    player1 := Player.newPieceSet ⟨"player_1", "white", [], [], []⟩
    player2 := Player.newPieceSet ⟨"player_2", "black", [], [], []⟩
    pieceGenerationCounter := 32
    newBoard := populateBoard (populateBoard initialBoardDict "black" 7 8 0) "white" 2 1 18 }

/-- `ChessVar.increment_turn` (src lines 58-67): win detection from the two
captured lists (sequential ifs), then the turn counter advances. -/
def incrementTurn (s : ChessVarState) : ChessVarState :=
  let gs1 := if "king" ∈ s.player1.capturedPieces then "BLACK_WON" else s.gameState
  let gs2 := if "king" ∈ s.player2.capturedPieces then "WHITE_WON" else gs1
  { s with gameState := gs2, turn := s.turn + 1 }

/-- The path-obstruction loop of `make_move` (src lines 123-126): a square on
the returned list other than origin and destination that holds a piece makes
the move illegal (`some true`).  The outer `none` covers the KeyError the
source would raise if a list entry had no square name. -/
def pathObstructed (b : PyDict (Option Piece)) (curLoc newLoc : Int) :
    List Int → Option Bool
  | [] => some false
  | m :: ms =>
    if m ≠ newLoc ∧ m ≠ curLoc then
      match getLocationAsSpaceName m with
      | none => none
      | some nm =>
        match pyDictGet b nm with
        | none => none
        | some occ =>
          if occ ≠ none then some true else pathObstructed b curLoc newLoc ms
    else pathObstructed b curLoc newLoc ms

/-- `ChessVar.make_move` (src lines 84-147).  The result is `none` when the
source raises (notably the unguarded `board_dict[current_square]` read at
line 104 and the location conversions at lines 116-117, which raise KeyError
for the stable slot keys), and `some (flag, s)` for a normal return.  The
pawn's in-place `_first_move` mutation is modelled by writing the piece back
to its source slot as soon as `valid_move` returns, before any of the
remaining validation; in the states this development evaluates, no pawn is
ever referenced from two slots, so the slot-local write is faithful to the
object mutation. -/
def makeMove (s : ChessVarState) (currentSquare newSquare : String) :
    Option (Bool × ChessVarState) :=
  if s.gameState ≠ "UNFINISHED" then some (false, s)
  else
    let playerTurn := if s.turn % 2 = 1 then "white" else "black"
    match pyDictGet s.newBoard currentSquare with
    | none => none
    | some none => some (false, s)
    | some (some movingPiece) =>
      if movingPiece.color ≠ playerTurn then some (false, s)
      else if ¬ pyDictContains s.newBoard currentSquare then some (false, s)
      else if ¬ pyDictContains s.newBoard newSquare then some (false, s)
      else
        match getSpaceNameAsLocation s.newBoard newSquare with
        | none => none
        | some none => none
        | some (some newLoc) =>
          match getSpaceNameAsLocation s.newBoard currentSquare with
          | none => none
          | some none => none
          | some (some curLoc) =>
            match pyDictGet s.newBoard newSquare with
            | none => none
            | some opponentInNewSquare =>
              let vm := pieceValidMove movingPiece curLoc newLoc opponentInNewSquare
              let movingPiece1 : Piece := { movingPiece with firstMove := vm.1 }
              let board1 := pyDictSet s.newBoard currentSquare (some movingPiece1)
              let s1 := { s with newBoard := board1 }
              match vm.2 with
              | none => some (false, s1)
              | some validMoveList =>
                match pathObstructed board1 curLoc newLoc validMoveList with
                | none => none
                | some true => some (false, s1)
                | some false =>
                  let afterCapture : Option ChessVarState :=
                    match opponentInNewSquare with
                    | none => some s1
                    | some opp =>
                      if playerTurn = "white" then
                        if opp.color = "white" then none
                        else
                          let p2 :=
                            (s1.player2.addCapturedPiece opp.pieceName).removeActivePiece
                              opp.pieceName
                          some { s1 with player2 := p2 }
                      else
                        if opp.color = "black" then none
                        else
                          let p1 :=
                            (s1.player1.addCapturedPiece opp.pieceName).removeActivePiece
                              opp.pieceName
                          some { s1 with player1 := p1 }
                  match afterCapture with
                  | none => some (false, s1)
                  | some s2 =>
                    let board2 := pyDictSet s2.newBoard newSquare (some movingPiece1)
                    let board3 := pyDictSet board2 currentSquare none
                    some (true, incrementTurn { s2 with newBoard := board3 })

/-- The fairy-entry capture gate of the source (src lines 169, 176, 187,
194): `if 'rook' or 'knight' or 'bishop' or 'queen' in captured:`.  Python's
`in` binds tighter than `or`, so the condition is a truthiness chain whose
first operand is the non-empty string literal, making the whole guard true
for every captured list. -/
def capturedGate (captured : List String) : Bool :=
  !("rook" == "") || !("knight" == "") || !("bishop" == "") || captured.contains "queen"

/-- `ChessVar.entry_fairy_piece` (src lines 149-199).  Both color branches
consult and drain `player_1`'s fairy stable and place the piece object stored
in the stable slot without clearing that slot.  The outer `none` covers the
KeyError of converting a stable slot key and the TypeError of comparing a
Python `None` location against 47 or 16. -/
def entryFairyPiece (s : ChessVarState) (pieceType entrySquare : String) :
    Option (Bool × ChessVarState) :=
  let playerTurn := if s.turn % 2 = 1 then "white" else "black"
  if playerTurn = "white" then
    match getSpaceNameAsLocation s.newBoard entrySquare with
    | none => none
    | some none => none
    | some (some loc) =>
      if loc > 47 then
        match pyDictGet s.newBoard entrySquare with
        | none => none
        | some (some _) => some (false, s)
        | some none =>
          if pieceType = "F" ∧ "falcon" ∈ s.player1.fairyPiecesStable ∧
              capturedGate s.player1.capturedPieces then
            match pyDictGet s.newBoard "F" with
            | none => none
            | some fp =>
              some (true, incrementTurn
                { s with newBoard := pyDictSet s.newBoard entrySquare fp,
                         player1 := s.player1.removeFairyPiece "falcon" })
          else if pieceType = "H" ∧ "hunter" ∈ s.player1.fairyPiecesStable ∧
              capturedGate s.player1.capturedPieces then
            match pyDictGet s.newBoard "H" with
            | none => none
            | some fp =>
              some (true, incrementTurn
                { s with newBoard := pyDictSet s.newBoard entrySquare fp,
                         player1 := s.player1.removeFairyPiece "hunter" })
          else some (false, s)
      else some (false, s)
  else
    match getSpaceNameAsLocation s.newBoard entrySquare with
    | none => none
    | some none => none
    | some (some loc) =>
      if loc < 16 then
        match pyDictGet s.newBoard entrySquare with
        | none => none
        | some (some _) => some (false, s)
        | some none =>
          if pieceType = "f" ∧ "falcon" ∈ s.player1.fairyPiecesStable ∧
              capturedGate s.player1.capturedPieces then
            match pyDictGet s.newBoard "f" with
            | none => none
            | some fp =>
              some (true, incrementTurn
                { s with newBoard := pyDictSet s.newBoard entrySquare fp,
                         player1 := s.player1.removeFairyPiece "falcon" })
          else if pieceType = "h" ∧ "hunter" ∈ s.player1.fairyPiecesStable ∧
              capturedGate s.player1.capturedPieces then
            match pyDictGet s.newBoard "h" with
            | none => none
            | some fp =>
              some (true, incrementTurn
                { s with newBoard := pyDictSet s.newBoard entrySquare fp,
                         player1 := s.player1.removeFairyPiece "hunter" })
          else some (false, s)
      else some (false, s)

/-- Runs a list of `make_move` calls from a state, requiring every move to be
accepted; `none` if a move faults or is rejected. -/
def runMoves : List (String × String) → ChessVarState → Option ChessVarState
  | [], s => some s
  | (a, b) :: rest, s =>
    match makeMove s a b with
    | some (true, s1) => runMoves rest s1
    | _ => none

/-- State of a fresh game after a list of accepted moves. -/
def stateAfter (ms : List (String × String)) : Option ChessVarState :=
  runMoves ms freshGame

/-- Identity (object id) of the piece at a slot, if any. -/
def occupantIdAt (s : ChessVarState) (sq : String) : Option Nat :=
  match pyDictGet s.newBoard sq with
  | some (some p) => some p.id
  | _ => none

/-- Kind name of the piece at a slot, if any. -/
def occupantNameAt (s : ChessVarState) (sq : String) : Option String :=
  match pyDictGet s.newBoard sq with
  | some (some p) => some p.pieceName
  | _ => none

/-- Color of the piece at a slot, if any. -/
def occupantColorAt (s : ChessVarState) (sq : String) : Option String :=
  match pyDictGet s.newBoard sq with
  | some (some p) => some p.color
  | _ => none

/-- The `_first_move` flag of the piece at a slot, if any. -/
def firstMoveFlagAt (s : ChessVarState) (sq : String) : Option Bool :=
  match pyDictGet s.newBoard sq with
  | some (some p) => some p.firstMove
  | _ => none

/-- Whether a slot holds a piece. -/
def isOccupied (s : ChessVarState) (sq : String) : Bool :=
  (occupantIdAt s sq).isSome

/-- The 64 standard square names, in the order of the location table. -/
def standardSquareNames : List String := nameToLocationDict.map (fun p => p.1)

/-- Whether a square name converts to a location index and back to itself
through the board's two conversion methods. -/
def nameRoundTrips (s : String) : Bool :=
  match getSpaceNameAsLocation freshGame.newBoard s with
  | some (some l) => getLocationAsSpaceName l == some s
  | _ => false

/-- Opening in which white shuffles the a-pawn while the black e-pawn marches
to e3, leaving the white e2 pawn unmoved with a blocker directly ahead. -/
def c1Moves : List (String × String) :=
  [("a2", "a3"), ("e7", "e5"), ("a3", "a4"), ("e5", "e4"), ("a4", "a5"), ("e4", "e3")]

/-- Five accepted plies after which the white queen has captured the black
king on e8: the game state is WHITE_WON and it is black's turn. -/
def scholarMoves : List (String × String) :=
  [("e2", "e4"), ("f7", "f5"), ("d1", "h5"), ("a7", "a6"), ("h5", "e8")]

/-- Two quiet pawn moves that free a2 for a white fairy entry; neither side
has captured anything. -/
def c3Moves : List (String × String) := [("a2", "a3"), ("a7", "a6")]

/-- Three quiet pawn moves that free a7 for a black fairy entry. -/
def c4Moves : List (String × String) :=
  [("a2", "a3"), ("a7", "a6"), ("b2", "b3")]

/-- Opening that parks the white rook on a3 with a black pawn on b3 and d3
empty, setting up a rightward row move across an occupied square. -/
def c6Moves : List (String × String) :=
  [("a2", "a4"), ("b7", "b5"), ("a1", "a3"), ("b5", "b4"), ("h2", "h3"), ("b4", "b3")]

/-- A state whose outcome is already decided, used to instantiate the
universal rejection theorem for `make_move`. -/
def aWonState : ChessVarState := { freshGame with gameState := "WHITE_WON" }

/-- Claim C1 (code_bug evidence): in the reachable position after `c1Moves`
the white pawn on e2 still has its first-move flag set, yet the rejected
double step e2-e4 (blocked on e3) returns `False` while clearing that flag —
`Pawn.valid_move` mutates `_first_move` before `make_move` finishes
validating, so a rejected call leaves observable state changed. -/
theorem rejected_double_step_clears_pawn_first_move_flag :
    (stateAfter c1Moves).map (fun s => firstMoveFlagAt s "e2") = some (some true) ∧
      ((stateAfter c1Moves).bind fun s => makeMove s "e2" "e4").map
          (fun r => (r.1, firstMoveFlagAt r.2 "e2", r.2.turn)) =
        some (false, some false, 7) :=
  ⟨rfl, rfl⟩

/-- Claim C2 counterexample: after `scholarMoves` the outcome is WHITE_WON,
yet `entry_fairy_piece` — which never consults the game state — accepts a
black hunter entry on f7, advancing the turn and occupying the square. -/
theorem fairy_entry_succeeds_after_game_won :
    (stateAfter scholarMoves).map (fun s => s.gameState) = some "WHITE_WON" ∧
      ((stateAfter scholarMoves).bind fun s => entryFairyPiece s "h" "f7").map
          (fun r => (r.1, r.2.turn, isOccupied r.2 "f7")) =
        some (true, 7, true) :=
  ⟨rfl, rfl⟩

/-- Claim C2 (amended): once the outcome is a won state, every `make_move`
call returns failure and leaves the state unchanged; the source checks the
game state before touching anything else.  (`entry_fairy_piece` performs no
such check, as the counterexample shows.) -/
theorem make_move_rejected_when_game_over (s : ChessVarState) (a b : String)
    (h : s.gameState ≠ "UNFINISHED") : makeMove s a b = some (false, s) := by
  unfold makeMove
  rw [if_pos h]

/-- Witness for `make_move_rejected_when_game_over` at a concrete won
state. -/
theorem make_move_rejected_when_game_over_witness :
    makeMove aWonState "e2" "e4" = some (false, aWonState) :=
  make_move_rejected_when_game_over aWonState "e2" "e4" (by decide)

/-- Claim C3 (code_bug evidence): after `c3Moves` neither side has captured
any piece, yet the white hunter entry on a2 is accepted — the source's gate
expression is a Python truthiness chain that is always true. -/
theorem fairy_entry_accepted_without_any_capture :
    (stateAfter c3Moves).map
        (fun s => (s.player1.capturedPieces, s.player2.capturedPieces)) =
      some ([], []) ∧
      ((stateAfter c3Moves).bind fun s => entryFairyPiece s "H" "a2").map
          (fun r => (r.1, occupantNameAt r.2 "a2")) =
        some (true, some "hunter") :=
  ⟨rfl, rfl⟩

/-- Claim C4 (code_bug evidence): a successful black hunter entry on a7
removes `hunter` from white's (`player_1`'s) fairy stable and leaves black's
own stable untouched, while placing black's hunter on the board — both color
branches of `entry_fairy_piece` consult and drain `player_1`. -/
theorem black_fairy_entry_drains_white_stable :
    ((stateAfter c4Moves).bind fun s => entryFairyPiece s "h" "a7").map
        (fun r =>
          (r.1, r.2.player1.fairyPiecesStable, r.2.player2.fairyPiecesStable,
            occupantColorAt r.2 "a7")) =
      some (true, ["falcon"], ["hunter", "falcon"], some "black") :=
  rfl

/-- Claim C5 (code_bug evidence): a malformed source square name reaches the
unguarded `board_dict[current_square]` read and raises KeyError instead of
returning `False`, and a stable slot key as destination passes the membership
guard but raises KeyError during location conversion; only a malformed
destination square is rejected with `False` and no state change. -/
theorem make_move_faults_on_malformed_and_stable_square_names :
    makeMove freshGame "z9" "a3" = none ∧
      makeMove freshGame "a2" "F" = none ∧
      makeMove freshGame "a2" "z9" = some (false, freshGame) :=
  ⟨rfl, rfl, rfl⟩

/-- Claim C6 (code_bug evidence): a rook row move whose origin index is below
its destination returns an empty path list (the source duplicates the
`current > new` guard), so after `c6Moves` the white rook on a3 jumps the
black pawn on b3 to d3 and the move is accepted. -/
theorem rook_rightward_row_move_skips_obstruction_check :
    rookValidMove 40 43 = some [] ∧
      ((stateAfter c6Moves).bind fun s => makeMove s "a3" "d3").map
          (fun r =>
            (r.1, occupantNameAt r.2 "d3", occupantNameAt r.2 "b3",
              isOccupied r.2 "a3")) =
        some (true, some "rook", some "pawn", false) :=
  ⟨rfl, rfl⟩

/-- Claim C7 (code_bug evidence): the knight accepts the index difference 15
from h3 (47) to a5 (32), a move that wraps around the board edge (file delta
7, rank delta 2 — not an L-shape); the source checks only membership of the
absolute difference in {6, 10, 14, 15, 17}. -/
theorem knight_accepts_wraparound_difference_fifteen :
    knightValidMove 47 32 = some [32] :=
  rfl

/-- Claim C8 (code_bug evidence): the bishop accepts a8 (0) to d4 (35), whose
difference is a multiple of 7 but which is not a true diagonal, and even on
the genuine diagonal a1 (56) to h8 (7) it returns only a single square
instead of the traversed segment, because the `% 7` branch returns from
inside its loop after the first iteration. -/
theorem bishop_accepts_non_diagonal_and_truncates_path :
    bishopValidMove 0 35 = some [0] ∧ bishopValidMove 56 7 = some [7] :=
  ⟨rfl, rfl⟩

/-- Claim C9: every one of the 64 standard square names converts to its
location index and back to the same name — the name-to-index mapping is a
bijection on the standard squares. -/
theorem square_name_location_roundtrip :
    ∀ s ∈ standardSquareNames, nameRoundTrips s = true := by
  decide

/-- Witness for `square_name_location_roundtrip` at the square e4. -/
theorem square_name_location_roundtrip_witness : nameRoundTrips "e4" = true :=
  square_name_location_roundtrip "e4" (by decide)

/-- Claim C10 (code_bug evidence): after the accepted white hunter entry on
a2, the hunter object (id 35) is referenced both from its stable slot H and
from the entry square — `entry_fairy_piece` copies the stable slot's piece
onto the board without clearing the slot. -/
theorem fairy_entry_leaves_piece_in_two_slots :
    ((stateAfter c3Moves).bind fun s => entryFairyPiece s "H" "a2").map
        (fun r => (r.1, occupantIdAt r.2 "a2", occupantIdAt r.2 "H")) =
      some (true, some 35, some 35) :=
  rfl

end ChessVar
